import Mathlib

set_option maxRecDepth 8192

/-
Verification development for the BLE service-layer control plane of this
repository: the HAL GATT callback multiplexer (service/hal/
bluetooth_gatt_interface.cpp), the client registration map of
LowEnergyClientFactory, and the per-client advertising state machine of
LowEnergyClient (declared in service/low_energy_client.h and exercised by
the unit tests in src/unnamed/part_003).

The body of low_energy_client.cpp is not part of src/, so the state
machine and the registration map are modelled from the specification
(spec.md sections 3, 4.2 and 4.3), with the data fields taken from the
header that is in src/ and with the unit tests used to pin down the
points where the specification is ambiguous or self-contradictory.
The multiplexer definitions are translated directly from
bluetooth_gatt_interface.cpp.
-/

/-- Status codes surfaced to callers of the service layer. The spec
(section 6) fixes the closed set with the members success and failure;
richer HAL codes are collapsed at this boundary. -/
inductive BLEStatus
  | success
  | failure
deriving DecidableEq, Repr

/-- HAL status code for an accepted call: BT_STATUS_SUCCESS is 0 in the
hardware headers; every other integer is a failure code. -/
def BT_STATUS_SUCCESS : Int := 0

/-- Modelled from the spec: the helper GetBLEStatus of the missing
low_energy_client.cpp, which collapses a raw HAL status integer into the
two-element status set of section 6. -/
def GetBLEStatus (status : Int) : BLEStatus :=
  if status = BT_STATUS_SUCCESS then BLEStatus.success else BLEStatus.failure

/-- Hardware calls the advertising state machine can issue through the
HAL client interface, as named in the mock of src/unnamed/part_003:
multi_adv_enable, multi_adv_set_inst_data (with its set_scan_rsp flag)
and multi_adv_disable. -/
inductive HwCall
  | multiAdvEnable
  | multiAdvSetInstData (setScanRsp : Bool)
  | multiAdvDisable
deriving DecidableEq, Repr

/-- Advertising-related state of one LowEnergyClient. The fields mirror
the members declared in service/low_energy_client.h lines 117-131:
adv_started_, adv_start_callback_, adv_stop_callback_,
adv_data_needs_update_, scan_rsp_needs_update_, is_setting_adv_data_.
Stored callbacks are represented by opaque numeric identifiers; a
callback invocation is recorded as a pair of the identifier and the
status it was invoked with. -/
structure AdvertisingSession where
  advStarted : Bool
  advStartCallback : Option Nat
  advStopCallback : Option Nat
  advDataNeedsUpdate : Bool
  scanRspNeedsUpdate : Bool
  isSettingAdvData : Bool
deriving DecidableEq, Repr

/-- Result of one client-facing call on the state machine: the new
session state, the accepted verdict returned to the caller, the hardware
calls issued during the call, and the callback invocations fired during
the call. -/
structure OpResult where
  session : AdvertisingSession
  accepted : Bool
  calls : List HwCall
  fired : List (Nat × BLEStatus)
deriving DecidableEq, Repr

/-- Result of delivering one hardware acknowledgement to the state
machine: the new session state, the hardware calls issued from inside
the handler, and the callback invocations fired. -/
structure CbResult where
  session : AdvertisingSession
  calls : List HwCall
  fired : List (Nat × BLEStatus)
deriving DecidableEq, Repr

namespace LowEnergyClient

/-- Link-layer payload budget for legacy advertising fields, spec
section 4.3: encoding must fit in 31 bytes. -/
def kMaxLegacyPayloadBytes : Nat := 31

/-- Synchronous query IsAdvertisingStarted of low_energy_client.h line
66: reads the adv_started_ flag. -/
def IsAdvertisingStarted (s : AdvertisingSession) : Bool :=
  s.advStarted

/-- Synchronous query IsStartingAdvertising of low_energy_client.h line
69: a start operation is pending while a start callback is stored. -/
def IsStartingAdvertising (s : AdvertisingSession) : Bool :=
  s.advStartCallback.isSome

/-- Synchronous query IsStoppingAdvertising of low_energy_client.h line
70: a stop operation is pending while a stop callback is stored. -/
def IsStoppingAdvertising (s : AdvertisingSession) : Bool :=
  s.advStopCallback.isSome

/-- Modelled from the spec: InvokeAndClearStartCallback of the missing
low_energy_client.cpp (declared at low_energy_client.h line 105). The
pending data-update flags are cleared, and the stored start callback, if
any, is invoked exactly once with the given status and cleared. -/
def InvokeAndClearStartCallback (s : AdvertisingSession) (status : BLEStatus) :
    AdvertisingSession × List (Nat × BLEStatus) :=
  match s.advStartCallback with
  | none =>
      ({ s with advDataNeedsUpdate := false, scanRspNeedsUpdate := false }, [])
  | some cb =>
      ({ s with advStartCallback := none,
                advDataNeedsUpdate := false,
                scanRspNeedsUpdate := false }, [(cb, status)])

/-- Modelled from the spec: InvokeAndClearStopCallback of the missing
low_energy_client.cpp (declared at low_energy_client.h line 106). -/
def InvokeAndClearStopCallback (s : AdvertisingSession) (status : BLEStatus) :
    AdvertisingSession × List (Nat × BLEStatus) :=
  match s.advStopCallback with
  | none => (s, [])
  | some cb => ({ s with advStopCallback := none }, [(cb, status)])

/-- Modelled from the spec: SetAdvertiseData of the missing
low_energy_client.cpp (declared at low_energy_client.h line 94). Issues
the multi_adv_set_inst_data hardware call for the advertise payload or
the scan response; on an immediate success return it marks the in-flight
flag and clears the dirty flag of the payload just sent, on an immediate
failure return it leaves the session untouched. The oracle hw gives the
synchronous verdict of each hardware call. -/
def SetAdvertiseData (s : AdvertisingSession) (setScanRsp : Bool)
    (hw : HwCall → Bool) : AdvertisingSession × Bool × List HwCall :=
  if hw (HwCall.multiAdvSetInstData setScanRsp) then
    (if setScanRsp then
       { s with scanRspNeedsUpdate := false, isSettingAdvData := true }
     else
       { s with advDataNeedsUpdate := false, isSettingAdvData := true },
     true, [HwCall.multiAdvSetInstData setScanRsp])
  else
    (s, false, [HwCall.multiAdvSetInstData setScanRsp])

/-- Modelled from the spec: HandleDeferredAdvertiseData of the missing
low_energy_client.cpp (declared at low_energy_client.h line 102), as the
rows of the section 4.3 table for the Starting state prescribe: send the
advertise payload first if it is dirty, else the scan response if it is
dirty (serialized, one call per acknowledgement), else declare the start
operation complete, marking advertising started and firing the stored
start callback once with success. A synchronously rejected set-data call
is treated like an asynchronous failure acknowledgement (section 4.3
failure semantics): the callback fires once with failure and the machine
returns to Idle. -/
def HandleDeferredAdvertiseData (s : AdvertisingSession)
    (hw : HwCall → Bool) : CbResult :=
  if s.advDataNeedsUpdate then
    let r := SetAdvertiseData s false hw
    if r.2.1 then ⟨r.1, r.2.2, []⟩
    else
      let c := InvokeAndClearStartCallback r.1 BLEStatus.failure
      ⟨c.1, r.2.2, c.2⟩
  else if s.scanRspNeedsUpdate then
    let r := SetAdvertiseData s true hw
    if r.2.1 then ⟨r.1, r.2.2, []⟩
    else
      let c := InvokeAndClearStartCallback r.1 BLEStatus.failure
      ⟨c.1, r.2.2, c.2⟩
  else
    let c := InvokeAndClearStartCallback { s with advStarted := true }
      BLEStatus.success
    ⟨c.1, [], c.2⟩

/-- Modelled from the spec: LowEnergyClient::StartAdvertising of the
missing low_energy_client.cpp (declared at low_energy_client.h lines
56-59), following the section 4.3 table and the unit test
StartAdvertisingBasic in src/unnamed/part_003. The call is rejected with
false, with no hardware call and no state change, when advertising is
already started or a start or stop operation is outstanding, or when a
payload exceeds the 31-byte legacy budget. Otherwise the machine issues
multi_adv_enable; on an immediate failure return the call returns false
with the session unchanged and no callback stored or fired, on an
immediate success return the payloads are marked dirty (the scan
response only when non-empty) and the start callback is stored. The
payloads are abstracted by their encoded lengths. -/
def StartAdvertising (s : AdvertisingSession) (advLen scanLen : Nat)
    (cb : Nat) (hw : HwCall → Bool) : OpResult :=
  if s.advStarted then ⟨s, false, [], []⟩
  else if s.advStartCallback.isSome then ⟨s, false, [], []⟩
  else if s.advStopCallback.isSome then ⟨s, false, [], []⟩
  else if kMaxLegacyPayloadBytes < advLen then ⟨s, false, [], []⟩
  else if kMaxLegacyPayloadBytes < scanLen then ⟨s, false, [], []⟩
  else if hw HwCall.multiAdvEnable then
    ⟨{ s with advDataNeedsUpdate := true,
              scanRspNeedsUpdate := scanLen != 0,
              advStartCallback := some cb },
     true, [HwCall.multiAdvEnable], []⟩
  else ⟨s, false, [HwCall.multiAdvEnable], []⟩

/-- Modelled from the spec: LowEnergyClient::StopAdvertising of the
missing low_energy_client.cpp (declared at low_energy_client.h line 63),
following the section 4.3 table and the unit test StopAdvertisingBasic.
Rejected with false, no hardware call and no state change unless
advertising is started with no stop operation outstanding; otherwise
multi_adv_disable is issued, and on an immediate failure return the call
returns false with the session unchanged and no callback stored. -/
def StopAdvertising (s : AdvertisingSession) (cb : Nat)
    (hw : HwCall → Bool) : OpResult :=
  if !s.advStarted then ⟨s, false, [], []⟩
  else if s.advStopCallback.isSome then ⟨s, false, [], []⟩
  else if hw HwCall.multiAdvDisable then
    ⟨{ s with advStopCallback := some cb }, true, [HwCall.multiAdvDisable], []⟩
  else ⟨s, false, [HwCall.multiAdvDisable], []⟩

/-- Modelled from the spec: the observer override
LowEnergyClient::MultiAdvEnableCallback (low_energy_client.h lines
83-85) for an enable acknowledgement addressed to this client, following
the section 4.3 table rows for the Starting state: on failure the stored
start callback fires once with failure and the machine returns to Idle;
on success the deferred data updates are processed. An acknowledgement
arriving with no start operation pending is ignored. -/
def MultiAdvEnableCallback (s : AdvertisingSession) (status : Int)
    (hw : HwCall → Bool) : CbResult :=
  match s.advStartCallback with
  | none => ⟨s, [], []⟩
  | some _ =>
      if status = BT_STATUS_SUCCESS then HandleDeferredAdvertiseData s hw
      else
        let c := InvokeAndClearStartCallback s (GetBLEStatus status)
        ⟨c.1, [], c.2⟩

/-- Modelled from the spec: the observer override
LowEnergyClient::MultiAdvDataCallback (low_energy_client.h lines 86-88)
for a set-data acknowledgement addressed to this client: the in-flight
flag is cleared first; on failure the stored start callback fires once
with failure and the machine returns to Idle; on success the remaining
deferred data updates are processed. -/
def MultiAdvDataCallback (s : AdvertisingSession) (status : Int)
    (hw : HwCall → Bool) : CbResult :=
  let s2 := { s with isSettingAdvData := false }
  match s2.advStartCallback with
  | none => ⟨s2, [], []⟩
  | some _ =>
      if status = BT_STATUS_SUCCESS then HandleDeferredAdvertiseData s2 hw
      else
        let c := InvokeAndClearStartCallback s2 (GetBLEStatus status)
        ⟨c.1, [], c.2⟩

/-- Modelled from the spec: the observer override
LowEnergyClient::MultiAdvDisableCallback (low_energy_client.h lines
89-91) for a disable acknowledgement addressed to this client: the
stored stop callback fires once with the collapsed status and is
cleared; the started flag is dropped only on success. The unit test
StopAdvertisingBasic (src/unnamed/part_003 lines 431-445) shows that a
failed disable acknowledgement leaves advertising started, which this
model follows where the section 4.3 table is ambiguous. -/
def MultiAdvDisableCallback (s : AdvertisingSession) (status : Int) :
    CbResult :=
  match s.advStopCallback with
  | none => ⟨s, [], []⟩
  | some _ =>
      let s2 := if status = BT_STATUS_SUCCESS then
          { s with advStarted := false } else s
      let c := InvokeAndClearStopCallback s2 (GetBLEStatus status)
      ⟨c.1, [], c.2⟩

end LowEnergyClient

/-- Spec section 3: the Idle state of an AdvertisingSession, derived
from the stored fields: not started and no operation outstanding in
either direction. -/
def sessionIdle (s : AdvertisingSession) : Bool :=
  !s.advStarted && s.advStartCallback.isNone && s.advStopCallback.isNone

/-- Spec section 3: the Starting state, a start operation outstanding. -/
def sessionStarting (s : AdvertisingSession) : Bool :=
  s.advStartCallback.isSome

/-- Spec section 3: the Started state, advertising enabled with no
operation outstanding. -/
def sessionStarted (s : AdvertisingSession) : Bool :=
  s.advStarted && s.advStartCallback.isNone && s.advStopCallback.isNone

/-- Spec section 3: the Stopping state, a stop operation outstanding. -/
def sessionStopping (s : AdvertisingSession) : Bool :=
  s.advStopCallback.isSome

/-- Oracle under which every hardware call returns an immediate success
verdict. -/
def hwAllOk : HwCall → Bool := fun _ => true

/-- Oracle under which every hardware call is rejected synchronously. -/
def hwRejectAll : HwCall → Bool := fun _ => false

/-- Concrete session in the Idle state. -/
def demoIdle : AdvertisingSession := ⟨false, none, none, false, false, false⟩

/-- Concrete session in the Starting state, with callback identifier 7
stored and both payloads dirty. -/
def demoStarting : AdvertisingSession := ⟨false, some 7, none, true, true, false⟩

/-- Concrete session in the Started state. -/
def demoStarted : AdvertisingSession := ⟨true, none, none, false, false, false⟩

/-- Concrete session in the Stopping state, with callback identifier 9
stored. -/
def demoStopping : AdvertisingSession := ⟨true, none, some 9, false, false, false⟩

namespace LowEnergyClientFactory

/-- Result of one RegisterClient call: the new pending map, the accepted
verdict returned to the caller, and the number of hardware
register_client calls issued during the call. The map holds pairs of a
client-chosen UUID (abstracted as a number) and an opaque completion
callback identifier. -/
structure RegisterResult where
  pending : List (Nat × Nat)
  accepted : Bool
  halCalls : Nat
deriving DecidableEq, Repr

/-- Modelled from the spec: LowEnergyClientFactory::RegisterClient of
the missing low_energy_client.cpp (declared at low_energy_client.h line
155), per spec section 4.2: a UUID already held by the map is rejected
with false and no hardware call; otherwise the hardware register_client
call is issued, and when its immediate verdict is failure the call
returns false without storing a pending entry; when it is success the
completion is stored under the UUID and the call returns true. The
parameter halOk is the immediate verdict of the hardware call. -/
def RegisterClient (m : List (Nat × Nat)) (uuid cb : Nat) (halOk : Bool) :
    RegisterResult :=
  if (m.lookup uuid).isSome then ⟨m, false, 0⟩
  else if halOk then ⟨m ++ [(uuid, cb)], true, 1⟩
  else ⟨m, false, 1⟩

/-- Client handle constructed by a successful registration, bound to the
hardware-assigned identifier and the original app UUID
(low_energy_client.h lines 44-48). -/
structure ClientHandle where
  clientIf : Int
  appUuid : Nat
deriving DecidableEq, Repr

/-- Record of one completion invocation: which stored callback fired,
the collapsed status, the app UUID it was fired with, and the
constructed client handle or none. -/
structure CompletionInvocation where
  cb : Nat
  status : BLEStatus
  uuid : Nat
  client : Option ClientHandle
deriving DecidableEq, Repr

/-- Result of delivering one hardware client-registered event to the
factory: the new pending map and the completion invocation, if any. -/
structure CallbackResult where
  pending : List (Nat × Nat)
  fired : Option CompletionInvocation
deriving DecidableEq, Repr

/-- Modelled from the spec: the observer override
LowEnergyClientFactory::RegisterClientCallback of the missing
low_energy_client.cpp (declared at low_energy_client.h lines 159-162),
per spec section 4.2: an event whose reported UUID matches no pending
entry is logged and dropped; on a match the entry is removed and the
stored completion is invoked exactly once with the collapsed status, the
app UUID, and, only when the status is success, one client handle bound
to the hardware-assigned identifier; on failure the assigned identifier
is discarded and the handle is none. -/
def RegisterClientCallback (m : List (Nat × Nat)) (status clientIf : Int)
    (uuid : Nat) : CallbackResult :=
  match m.lookup uuid with
  | none => ⟨m, none⟩
  | some cb =>
      let result := GetBLEStatus status
      let client : Option ClientHandle :=
        if result = BLEStatus.success then some ⟨clientIf, uuid⟩ else none
      ⟨m.eraseP (fun p => p.1 == uuid), some ⟨cb, result, uuid, client⟩⟩

end LowEnergyClientFactory

namespace HalGatt

/-- Observer registry owned by the multiplexer singleton
(bluetooth_gatt_interface.cpp lines 395-396): a list of client-role
observers and a list of server-role observers, in registration order,
abstracted as opaque identifiers. -/
structure GattRegistry where
  clientObservers : List Nat
  serverObservers : List Nat
deriving DecidableEq, Repr

/-- Outcome of delivering one raw hardware event to the multiplexer:
dropped means the event was logged and discarded because the singleton
was gone (VERIFY_INTERFACE_OR_RETURN, lines 55-59); aborted means a
fatal CHECK assertion fired; delivered lists the observers invoked, in
registration order. -/
inductive DispatchOutcome
  | dropped
  | aborted
  | delivered (observers : List Nat)
deriving DecidableEq, Repr

/-- Translation of the hal-level RegisterClientCallback
(bluetooth_gatt_interface.cpp lines 61-69): under the instance lock,
first VERIFY_INTERFACE_OR_RETURN drops the event when the singleton
pointer is null, then CHECK(app_uuid) aborts when the uuid pointer is
null, then every client observer is invoked. The singleton is an
optional registry; the uuid argument is an optional value standing for a
possibly null pointer. -/
def RegisterClientCallback (g : Option GattRegistry) (status clientIf : Int)
    (appUuid : Option Nat) : DispatchOutcome :=
  match g with
  | none => DispatchOutcome.dropped
  | some reg =>
      match appUuid with
      | none => DispatchOutcome.aborted
      | some _ => DispatchOutcome.delivered reg.clientObservers

/-- Translation of the hal-level RegisterServerCallback
(bluetooth_gatt_interface.cpp lines 107-115): same shape as the client
variant, dispatching to the server observers. -/
def RegisterServerCallback (g : Option GattRegistry) (status serverIf : Int)
    (appUuid : Option Nat) : DispatchOutcome :=
  match g with
  | none => DispatchOutcome.dropped
  | some reg =>
      match appUuid with
      | none => DispatchOutcome.aborted
      | some _ => DispatchOutcome.delivered reg.serverObservers

/-- Translation of the hal-level MultiAdvEnableCallback
(bluetooth_gatt_interface.cpp lines 71-78): no pointer payload, so no
CHECK; the event is dropped when the singleton is gone and otherwise
delivered to every client observer. -/
def MultiAdvEnableCallback (g : Option GattRegistry) (clientIf status : Int) :
    DispatchOutcome :=
  match g with
  | none => DispatchOutcome.dropped
  | some reg => DispatchOutcome.delivered reg.clientObservers

/-- Locks of the dispatch path: g_instance_lock
(bluetooth_gatt_interface.cpp line 38) guarding the singleton and the
observer lists, and pending_calls_lock_ (low_energy_client.h line 165)
guarding the pending registration map. -/
inductive LockId
  | gInstanceLock
  | pendingCallsLock
deriving DecidableEq, Repr

/-- A lock acquisition or release step. -/
inductive LockAction
  | acq (l : LockId)
  | rel (l : LockId)
deriving DecidableEq, Repr

/-- Set of locks held after performing a sequence of lock actions,
starting from none held. -/
def heldAfter (acts : List LockAction) : List LockId :=
  acts.foldl
    (fun held a =>
      match a with
      | LockAction.acq l => l :: held
      | LockAction.rel l => held.erase l)
    []

/-- Lock actions the hal-level RegisterClientCallback performs before it
invokes the observers (bluetooth_gatt_interface.cpp lines 61-69): a
lock_guard on g_instance_lock spans the whole body, so the dispatch to
observers happens with that lock held. -/
def dispatchLockActions : List LockAction :=
  [LockAction.acq LockId.gInstanceLock]

/-- Modelled from the spec: the lock actions the factory observer
performs before invoking the stored completion, part of the missing
low_energy_client.cpp. Spec section 4.2 states the completion runs under
the pending-map lock. -/
def factoryObserverLockActions : List LockAction :=
  [LockAction.acq LockId.pendingCallsLock]

/-- Locks held at the point where a registration completion callback is
invoked: those taken by the hal dispatch function, then those taken by
the factory observer it called. -/
def locksHeldAtCompletion : List LockId :=
  heldAfter (dispatchLockActions ++ factoryObserverLockActions)

/-- AddClientObserver acquires g_instance_lock
(bluetooth_gatt_interface.cpp lines 313-316). -/
def AddClientObserverAcquires : List LockId :=
  [LockId.gInstanceLock]

/-- AddClientObserverUnsafe acquires no lock
(bluetooth_gatt_interface.cpp lines 323-325). -/
def AddClientObserverUnsafeAcquires : List LockId := []

/-- A call self-deadlocks when it acquires a non-recursive std mutex the
calling thread already holds. -/
def selfDeadlock (held acquires : List LockId) : Bool :=
  acquires.any (fun l => held.contains l)

end HalGatt

lemma lookup_eq_none_of_not_mem_keys (u : Nat) (m : List (Nat × Nat))
    (h : u ∉ m.map Prod.fst) : m.lookup u = none := by
  induction m with
  | nil => rfl
  | cons hd tl ih =>
    obtain ⟨k, v⟩ := hd
    simp only [List.map_cons, List.mem_cons] at h
    push_neg at h
    obtain ⟨hk, htl⟩ := h
    simp [List.lookup, beq_eq_false_iff_ne.mpr hk, ih htl]

lemma lookup_eraseP_eq_none (u : Nat) (m : List (Nat × Nat))
    (hn : (m.map Prod.fst).Nodup) :
    (m.eraseP (fun p => p.1 == u)).lookup u = none := by
  induction m with
  | nil => rfl
  | cons hd tl ih =>
    obtain ⟨k, v⟩ := hd
    simp only [List.map_cons, List.nodup_cons] at hn
    obtain ⟨hk, htl⟩ := hn
    by_cases hku : k = u
    · subst hku
      rw [List.eraseP_cons_of_pos]
      · exact lookup_eq_none_of_not_mem_keys k tl hk
      · simp
    · rw [List.eraseP_cons_of_neg]
      · simp [List.lookup, beq_eq_false_iff_ne.mpr (Ne.symm hku), ih htl]
      · simp [hku]

/-- Claim C1: in every state of one client, StartAdvertising while the
machine is Starting or Started returns false, and StopAdvertising while
the machine is Idle or Stopping returns false; the rejected call issues
no hardware call and returns the session (state, dirty flags and any
stored completion callback) unchanged. -/
theorem C1_state_machine_exclusivity (s1 : AdvertisingSession)
    (a b cb1 : Nat) (hw1 : HwCall → Bool)
    (h1 : sessionStarting s1 = true ∨ sessionStarted s1 = true)
    (s2 : AdvertisingSession) (cb2 : Nat) (hw2 : HwCall → Bool)
    (h2 : sessionIdle s2 = true ∨ sessionStopping s2 = true) :
    LowEnergyClient.StartAdvertising s1 a b cb1 hw1 = ⟨s1, false, [], []⟩ ∧
    LowEnergyClient.StopAdvertising s2 cb2 hw2 = ⟨s2, false, [], []⟩ := by
  constructor
  · rcases h1 with h | h
    · simp only [sessionStarting] at h
      simp [LowEnergyClient.StartAdvertising, h]
    · simp only [sessionStarted, Bool.and_eq_true] at h
      simp [LowEnergyClient.StartAdvertising, h.1.1]
  · rcases h2 with h | h
    · simp only [sessionIdle, Bool.and_eq_true, Bool.not_eq_true'] at h
      simp [LowEnergyClient.StopAdvertising, h.1.1]
    · simp only [sessionStopping] at h
      simp [LowEnergyClient.StopAdvertising, h]

theorem C1_state_machine_exclusivity_witness :
    (sessionStarting demoStarting = true ∨ sessionStarted demoStarting = true) ∧
    (sessionIdle demoIdle = true ∨ sessionStopping demoIdle = true) ∧
    (LowEnergyClient.StartAdvertising demoStarting 3 0 11 hwAllOk =
        ⟨demoStarting, false, [], []⟩ ∧
     LowEnergyClient.StopAdvertising demoIdle 12 hwAllOk =
        ⟨demoIdle, false, [], []⟩) :=
  ⟨by decide, by decide,
   C1_state_machine_exclusivity demoStarting 3 0 11 hwAllOk (by decide)
     demoIdle 12 hwAllOk (by decide)⟩

/-- Claim C7: a StartAdvertising call whose advertise or scan-response
payload exceeds the 31-byte legacy link-layer budget returns false
synchronously, issues no hardware call, and leaves the
AdvertisingSession unchanged, in every state. -/
theorem C7_payload_budget (s : AdvertisingSession) (a b cb : Nat)
    (hw : HwCall → Bool)
    (h : LowEnergyClient.kMaxLegacyPayloadBytes < a ∨
         LowEnergyClient.kMaxLegacyPayloadBytes < b) :
    LowEnergyClient.StartAdvertising s a b cb hw = ⟨s, false, [], []⟩ := by
  rcases h with h | h <;> simp [LowEnergyClient.StartAdvertising, h]

theorem C7_payload_budget_witness :
    (LowEnergyClient.kMaxLegacyPayloadBytes < 32 ∨
     LowEnergyClient.kMaxLegacyPayloadBytes < 0) ∧
    LowEnergyClient.StartAdvertising demoIdle 32 0 13 hwAllOk =
      ⟨demoIdle, false, [], []⟩ :=
  ⟨by decide, C7_payload_budget demoIdle 32 0 13 hwAllOk (by decide)⟩

/-- Claim C4: while the machine is Starting (a start callback stored,
advertising not yet started, no stop in flight), a hardware failure
acknowledgement of either the enable call or a set-data call fires the
stored start callback exactly once with failure, clears it, issues no
further hardware call, and returns the machine to Idle: all three state
queries read false afterwards. -/
theorem C4_starting_failure_ack (s : AdvertisingSession) (cb : Nat)
    (status : Int) (hw : HwCall → Bool)
    (hcb : s.advStartCallback = some cb)
    (hns : s.advStarted = false)
    (hstop : s.advStopCallback = none)
    (hfail : status ≠ BT_STATUS_SUCCESS) :
    let e := LowEnergyClient.MultiAdvEnableCallback s status hw
    let d := LowEnergyClient.MultiAdvDataCallback s status hw
    e.fired = [(cb, BLEStatus.failure)] ∧ e.calls = [] ∧
    LowEnergyClient.IsAdvertisingStarted e.session = false ∧
    LowEnergyClient.IsStartingAdvertising e.session = false ∧
    LowEnergyClient.IsStoppingAdvertising e.session = false ∧
    d.fired = [(cb, BLEStatus.failure)] ∧ d.calls = [] ∧
    LowEnergyClient.IsAdvertisingStarted d.session = false ∧
    LowEnergyClient.IsStartingAdvertising d.session = false ∧
    LowEnergyClient.IsStoppingAdvertising d.session = false := by
  obtain ⟨st, scb, pcb, ad, sd, sg⟩ := s
  simp only at hcb hns hstop
  subst hcb hns hstop
  simp [LowEnergyClient.MultiAdvEnableCallback,
        LowEnergyClient.MultiAdvDataCallback,
        LowEnergyClient.InvokeAndClearStartCallback,
        LowEnergyClient.IsAdvertisingStarted,
        LowEnergyClient.IsStartingAdvertising,
        LowEnergyClient.IsStoppingAdvertising,
        GetBLEStatus, hfail]

theorem C4_starting_failure_ack_witness :
    demoStarting.advStartCallback = some 7 ∧
    demoStarting.advStarted = false ∧
    demoStarting.advStopCallback = none ∧
    (1 : Int) ≠ BT_STATUS_SUCCESS ∧
    (let e := LowEnergyClient.MultiAdvEnableCallback demoStarting 1 hwAllOk
     let d := LowEnergyClient.MultiAdvDataCallback demoStarting 1 hwAllOk
     e.fired = [(7, BLEStatus.failure)] ∧ e.calls = [] ∧
     LowEnergyClient.IsAdvertisingStarted e.session = false ∧
     LowEnergyClient.IsStartingAdvertising e.session = false ∧
     LowEnergyClient.IsStoppingAdvertising e.session = false ∧
     d.fired = [(7, BLEStatus.failure)] ∧ d.calls = [] ∧
     LowEnergyClient.IsAdvertisingStarted d.session = false ∧
     LowEnergyClient.IsStartingAdvertising d.session = false ∧
     LowEnergyClient.IsStoppingAdvertising d.session = false) :=
  ⟨by decide, by decide, by decide, by decide,
   C4_starting_failure_ack demoStarting 7 1 hwAllOk (by decide) (by decide)
     (by decide) (by decide)⟩

/-- Claim C3: the full success path of StartAdvertising from Idle with a
non-empty scan response. The accepted call issues exactly the enable
call; after the enable acknowledgement with success the machine issues
exactly the set-data call for the advertise payload (the scan response
is not sent concurrently); after that acknowledgement with success it
issues exactly the set-data call for the scan response; on the final
set-data acknowledgement with success, with no dirty data left, it fires
the stored start callback exactly once with success and reaches
Started. -/
theorem C3_full_success_path (s : AdvertisingSession) (advLen scanLen cb : Nat)
    (hidle : sessionIdle s = true)
    (ha : advLen ≤ LowEnergyClient.kMaxLegacyPayloadBytes)
    (hb : scanLen ≤ LowEnergyClient.kMaxLegacyPayloadBytes)
    (hs : 0 < scanLen) :
    let r0 := LowEnergyClient.StartAdvertising s advLen scanLen cb hwAllOk
    let r1 := LowEnergyClient.MultiAdvEnableCallback r0.session
      BT_STATUS_SUCCESS hwAllOk
    let r2 := LowEnergyClient.MultiAdvDataCallback r1.session
      BT_STATUS_SUCCESS hwAllOk
    let r3 := LowEnergyClient.MultiAdvDataCallback r2.session
      BT_STATUS_SUCCESS hwAllOk
    r0.accepted = true ∧ r0.calls = [HwCall.multiAdvEnable] ∧ r0.fired = [] ∧
    r1.calls = [HwCall.multiAdvSetInstData false] ∧ r1.fired = [] ∧
    r2.calls = [HwCall.multiAdvSetInstData true] ∧ r2.fired = [] ∧
    r3.calls = [] ∧ r3.fired = [(cb, BLEStatus.success)] ∧
    sessionStarted r3.session = true := by
  obtain ⟨st, scb, pcb, ad, sd, sg⟩ := s
  simp only [sessionIdle, Bool.and_eq_true, Bool.not_eq_true',
    Option.isNone_iff_eq_none] at hidle
  obtain ⟨⟨h1, h2⟩, h3⟩ := hidle
  subst h1 h2 h3
  have hna : ¬ (LowEnergyClient.kMaxLegacyPayloadBytes < advLen) :=
    Nat.not_lt.mpr ha
  have hnb : ¬ (LowEnergyClient.kMaxLegacyPayloadBytes < scanLen) :=
    Nat.not_lt.mpr hb
  have hsn : (scanLen != 0) = true := by
    simp only [bne_iff_ne, ne_eq]
    omega
  simp [LowEnergyClient.StartAdvertising,
        LowEnergyClient.MultiAdvEnableCallback,
        LowEnergyClient.MultiAdvDataCallback,
        LowEnergyClient.HandleDeferredAdvertiseData,
        LowEnergyClient.SetAdvertiseData,
        LowEnergyClient.InvokeAndClearStartCallback,
        hwAllOk, hna, hnb, hsn, sessionStarted, BT_STATUS_SUCCESS]

theorem C3_full_success_path_witness :
    sessionIdle demoIdle = true ∧
    3 ≤ LowEnergyClient.kMaxLegacyPayloadBytes ∧
    4 ≤ LowEnergyClient.kMaxLegacyPayloadBytes ∧
    0 < 4 ∧
    (let r0 := LowEnergyClient.StartAdvertising demoIdle 3 4 21 hwAllOk
     let r1 := LowEnergyClient.MultiAdvEnableCallback r0.session
       BT_STATUS_SUCCESS hwAllOk
     let r2 := LowEnergyClient.MultiAdvDataCallback r1.session
       BT_STATUS_SUCCESS hwAllOk
     let r3 := LowEnergyClient.MultiAdvDataCallback r2.session
       BT_STATUS_SUCCESS hwAllOk
     r0.accepted = true ∧ r0.calls = [HwCall.multiAdvEnable] ∧ r0.fired = [] ∧
     r1.calls = [HwCall.multiAdvSetInstData false] ∧ r1.fired = [] ∧
     r2.calls = [HwCall.multiAdvSetInstData true] ∧ r2.fired = [] ∧
     r3.calls = [] ∧ r3.fired = [(21, BLEStatus.success)] ∧
     sessionStarted r3.session = true) :=
  ⟨by decide, by decide, by decide, by decide,
   C3_full_success_path demoIdle 3 4 21 (by decide) (by decide) (by decide)
     (by decide)⟩

/-- Claim C5 counterexample: a StartAdvertising call from Idle whose
enable call is rejected synchronously (the oracle returns an immediate
failure verdict) returns false with the session reverted to the
pre-operation state, but it does NOT fire the callback: the list of
invocations fired during the call is empty, not of length one as the
claim requires. -/
theorem C5_sync_rejection_counterexample :
    (LowEnergyClient.StartAdvertising demoIdle 0 0 7 hwRejectAll).calls =
      [HwCall.multiAdvEnable] ∧
    (LowEnergyClient.StartAdvertising demoIdle 0 0 7 hwRejectAll).session =
      demoIdle ∧
    ¬ ((LowEnergyClient.StartAdvertising demoIdle 0 0 7 hwRejectAll).fired.length
        = 1) := by
  decide

/-- Claim C5 as amended: a hardware call rejected synchronously leaves
the machine in the pre-operation stable state, but the callback
behaviour depends on where the call was issued. The initial enable or
disable call issued by StartAdvertising or StopAdvertising itself
returns false to the caller and fires no callback for that attempt
(spec section 7 taxonomy item a); only a set-data call issued from
inside an acknowledgement handler, where the start callback is already
stored, is treated identically to an asynchronous failure
acknowledgement: the callback fires exactly once with failure and the
machine returns to Idle. -/
theorem C5_sync_rejection_amended (s1 : AdvertisingSession)
    (a b cb1 : Nat) (hw1 : HwCall → Bool)
    (hidle : sessionIdle s1 = true)
    (ha : a ≤ LowEnergyClient.kMaxLegacyPayloadBytes)
    (hb : b ≤ LowEnergyClient.kMaxLegacyPayloadBytes)
    (hrej1 : hw1 HwCall.multiAdvEnable = false)
    (s2 : AdvertisingSession) (cb2 : Nat) (hw2 : HwCall → Bool)
    (hstarted : sessionStarted s2 = true)
    (hrej2 : hw2 HwCall.multiAdvDisable = false)
    (s3 : AdvertisingSession) (cb3 : Nat) (hw3 : HwCall → Bool)
    (hcb3 : s3.advStartCallback = some cb3)
    (hns3 : s3.advStarted = false)
    (hstop3 : s3.advStopCallback = none)
    (hdirty3 : s3.advDataNeedsUpdate = true)
    (hrej3 : hw3 (HwCall.multiAdvSetInstData false) = false) :
    LowEnergyClient.StartAdvertising s1 a b cb1 hw1 =
      ⟨s1, false, [HwCall.multiAdvEnable], []⟩ ∧
    LowEnergyClient.StopAdvertising s2 cb2 hw2 =
      ⟨s2, false, [HwCall.multiAdvDisable], []⟩ ∧
    (LowEnergyClient.MultiAdvEnableCallback s3 BT_STATUS_SUCCESS hw3).calls =
      [HwCall.multiAdvSetInstData false] ∧
    (LowEnergyClient.MultiAdvEnableCallback s3 BT_STATUS_SUCCESS hw3).fired =
      [(cb3, BLEStatus.failure)] ∧
    sessionIdle
      (LowEnergyClient.MultiAdvEnableCallback s3 BT_STATUS_SUCCESS hw3).session
      = true := by
  refine ⟨?_, ?_, ?_⟩
  · obtain ⟨st, scb, pcb, ad, sd, sg⟩ := s1
    simp only [sessionIdle, Bool.and_eq_true, Bool.not_eq_true',
      Option.isNone_iff_eq_none] at hidle
    obtain ⟨⟨h1, h2⟩, h3⟩ := hidle
    subst h1 h2 h3
    simp [LowEnergyClient.StartAdvertising, Nat.not_lt.mpr ha,
      Nat.not_lt.mpr hb, hrej1]
  · obtain ⟨st, scb, pcb, ad, sd, sg⟩ := s2
    simp only [sessionStarted, Bool.and_eq_true,
      Option.isNone_iff_eq_none] at hstarted
    obtain ⟨⟨h1, h2⟩, h3⟩ := hstarted
    subst h1 h2 h3
    simp [LowEnergyClient.StopAdvertising, hrej2]
  · obtain ⟨st, scb, pcb, ad, sd, sg⟩ := s3
    simp only at hcb3 hns3 hstop3 hdirty3
    subst hcb3 hns3 hstop3 hdirty3
    simp [LowEnergyClient.MultiAdvEnableCallback,
      LowEnergyClient.HandleDeferredAdvertiseData,
      LowEnergyClient.SetAdvertiseData,
      LowEnergyClient.InvokeAndClearStartCallback,
      sessionIdle, BT_STATUS_SUCCESS, hrej3]

theorem C5_sync_rejection_amended_witness :
    sessionIdle demoIdle = true ∧
    0 ≤ LowEnergyClient.kMaxLegacyPayloadBytes ∧
    sessionStarted demoStarted = true ∧
    demoStarting.advStartCallback = some 7 ∧
    demoStarting.advStarted = false ∧
    demoStarting.advStopCallback = none ∧
    demoStarting.advDataNeedsUpdate = true ∧
    hwRejectAll HwCall.multiAdvEnable = false ∧
    (LowEnergyClient.StartAdvertising demoIdle 0 0 31 hwRejectAll =
       ⟨demoIdle, false, [HwCall.multiAdvEnable], []⟩ ∧
     LowEnergyClient.StopAdvertising demoStarted 32 hwRejectAll =
       ⟨demoStarted, false, [HwCall.multiAdvDisable], []⟩ ∧
     (LowEnergyClient.MultiAdvEnableCallback demoStarting BT_STATUS_SUCCESS
        hwRejectAll).calls = [HwCall.multiAdvSetInstData false] ∧
     (LowEnergyClient.MultiAdvEnableCallback demoStarting BT_STATUS_SUCCESS
        hwRejectAll).fired = [(7, BLEStatus.failure)] ∧
     sessionIdle (LowEnergyClient.MultiAdvEnableCallback demoStarting
        BT_STATUS_SUCCESS hwRejectAll).session = true) :=
  ⟨by decide, by decide, by decide, by decide, by decide, by decide, by decide,
   by decide,
   C5_sync_rejection_amended demoIdle 0 0 31 hwRejectAll (by decide) (by decide)
     (by decide) (by decide) demoStarted 32 hwRejectAll (by decide) (by decide)
     demoStarting 7 hwRejectAll (by decide) (by decide) (by decide) (by decide)
     (by decide)⟩

/-- Claim C2: a RegisterClient call for a UUID that already has a
pending entry returns false with the map unchanged and zero hardware
register_client calls, whatever the hardware verdict would have been;
and when the hardware call itself reports immediate failure the call
returns false, issues exactly that one hardware call, and stores no
pending entry, so a later RegisterClient for the same UUID is accepted. -/
theorem C2_no_duplicate_pending (m : List (Nat × Nat)) (u cb : Nat)
    (hp : (m.lookup u).isSome = true)
    (m2 : List (Nat × Nat)) (u2 cb2 cb3 : Nat)
    (hf : m2.lookup u2 = none) :
    LowEnergyClientFactory.RegisterClient m u cb true = ⟨m, false, 0⟩ ∧
    LowEnergyClientFactory.RegisterClient m u cb false = ⟨m, false, 0⟩ ∧
    LowEnergyClientFactory.RegisterClient m2 u2 cb2 false = ⟨m2, false, 1⟩ ∧
    LowEnergyClientFactory.RegisterClient m2 u2 cb3 true =
      ⟨m2 ++ [(u2, cb3)], true, 1⟩ := by
  refine ⟨?_, ?_, ?_, ?_⟩ <;>
    simp [LowEnergyClientFactory.RegisterClient, hp, hf]

theorem C2_no_duplicate_pending_witness :
    (([(5, 40)] : List (Nat × Nat)).lookup 5).isSome = true ∧
    (([(5, 40)] : List (Nat × Nat)).lookup 6) = none ∧
    (LowEnergyClientFactory.RegisterClient [(5, 40)] 5 41 true =
       ⟨[(5, 40)], false, 0⟩ ∧
     LowEnergyClientFactory.RegisterClient [(5, 40)] 5 41 false =
       ⟨[(5, 40)], false, 0⟩ ∧
     LowEnergyClientFactory.RegisterClient [(5, 40)] 6 42 false =
       ⟨[(5, 40)], false, 1⟩ ∧
     LowEnergyClientFactory.RegisterClient [(5, 40)] 6 43 true =
       ⟨[(5, 40), (6, 43)], true, 1⟩) :=
  ⟨by decide, by decide,
   C2_no_duplicate_pending [(5, 40)] 5 41 (by decide) [(5, 40)] 6 42 43
     (by decide)⟩

/-- Claim C6: a hardware client-registered event matching a pending
registration removes the entry (the UUID is no longer found in the
resulting map, given the map keys are unique) and fires the stored
completion exactly once, with a null client handle and the assigned
identifier discarded when the status is not success, and with exactly
one handle bound to the assigned identifier and the original app UUID
when the status is success. -/
theorem C6_registration_completion (m : List (Nat × Nat)) (u cb : Nat)
    (status clientIf : Int)
    (hn : (m.map Prod.fst).Nodup)
    (h : m.lookup u = some cb) :
    LowEnergyClientFactory.RegisterClientCallback m status clientIf u =
      ⟨m.eraseP (fun p => p.1 == u),
       some ⟨cb, GetBLEStatus status, u,
             if status = BT_STATUS_SUCCESS then
               some ⟨clientIf, u⟩ else none⟩⟩ ∧
    (LowEnergyClientFactory.RegisterClientCallback m status clientIf
        u).pending.lookup u = none := by
  constructor
  · by_cases hst : status = BT_STATUS_SUCCESS <;>
      simp [LowEnergyClientFactory.RegisterClientCallback, h, GetBLEStatus, hst]
  · simp only [LowEnergyClientFactory.RegisterClientCallback, h]
    exact lookup_eraseP_eq_none u m hn

theorem C6_registration_completion_witness :
    (([(5, 40), (8, 44)] : List (Nat × Nat)).map Prod.fst).Nodup ∧
    (([(5, 40), (8, 44)] : List (Nat × Nat)).lookup 5) = some 40 ∧
    (LowEnergyClientFactory.RegisterClientCallback [(5, 40), (8, 44)] 0 2 5 =
       ⟨([(5, 40), (8, 44)] : List (Nat × Nat)).eraseP (fun p => p.1 == 5),
        some ⟨40, GetBLEStatus 0, 5,
              if (0 : Int) = BT_STATUS_SUCCESS then
                some ⟨2, 5⟩ else none⟩⟩ ∧
     (LowEnergyClientFactory.RegisterClientCallback [(5, 40), (8, 44)] 0 2
        5).pending.lookup 5 = none) :=
  ⟨by decide, by decide,
   C6_registration_completion [(5, 40), (8, 44)] 5 40 0 2 (by decide)
     (by decide)⟩

/-- Claim C8: an orphaned hardware event is logged and dropped. A
client-registered event whose UUID matches no pending registration
leaves the pending map unmodified and fires no completion; and any event
delivered after the multiplexer singleton was torn down (the optional
registry is none) yields the dropped outcome of
VERIFY_INTERFACE_OR_RETURN, invoking no observer and aborting nothing,
for the register-client dispatcher and the advertising dispatcher
alike. -/
theorem C8_orphan_event_safety (m : List (Nat × Nat)) (u : Nat)
    (status clientIf : Int)
    (h : m.lookup u = none)
    (uuidPtr : Option Nat) (st2 cid2 st3 cid3 : Int) :
    LowEnergyClientFactory.RegisterClientCallback m status clientIf u =
      ⟨m, none⟩ ∧
    HalGatt.RegisterClientCallback none st2 cid2 uuidPtr =
      HalGatt.DispatchOutcome.dropped ∧
    HalGatt.MultiAdvEnableCallback none cid3 st3 =
      HalGatt.DispatchOutcome.dropped := by
  refine ⟨?_, rfl, rfl⟩
  simp [LowEnergyClientFactory.RegisterClientCallback, h]

theorem C8_orphan_event_safety_witness :
    (([(5, 40)] : List (Nat × Nat)).lookup 6) = none ∧
    (LowEnergyClientFactory.RegisterClientCallback [(5, 40)] 0 2 6 =
       ⟨[(5, 40)], none⟩ ∧
     HalGatt.RegisterClientCallback none 0 2 (some 6) =
       HalGatt.DispatchOutcome.dropped ∧
     HalGatt.MultiAdvEnableCallback none 2 0 =
       HalGatt.DispatchOutcome.dropped) :=
  ⟨by decide,
   C8_orphan_event_safety [(5, 40)] 6 0 2 (by decide) (some 6) 0 2 0 2⟩

/-- Claim C9 counterexample: the claim states that a registration
completion runs outside the registry dispatch lock and can call
AddClientObserver without deadlock. In the code the hal-level dispatch
function holds g_instance_lock for its whole body, so at the point the
completion is invoked g_instance_lock is among the locks held, and a
call to AddClientObserver, which acquires that same non-recursive lock,
self-deadlocks. -/
theorem C9_completion_locks_counterexample :
    HalGatt.locksHeldAtCompletion.contains HalGatt.LockId.gInstanceLock
      = true ∧
    HalGatt.selfDeadlock HalGatt.locksHeldAtCompletion
      HalGatt.AddClientObserverAcquires = true := by
  decide

/-- Claim C9 as amended: a registration completion runs synchronously on
the hardware-callback thread under BOTH the registry dispatch lock
g_instance_lock (held by the hal-level dispatch function across the
observer invocation) and the pending-map lock; calling the locking
AddClientObserver from inside the completion would self-deadlock on the
non-recursive dispatch lock, and re-entrant observer registration must
instead use AddClientObserverUnsafe, which acquires no lock and
therefore does not self-deadlock. -/
theorem C9_completion_locks_amended :
    HalGatt.locksHeldAtCompletion =
      [HalGatt.LockId.pendingCallsLock, HalGatt.LockId.gInstanceLock] ∧
    HalGatt.selfDeadlock HalGatt.locksHeldAtCompletion
      HalGatt.AddClientObserverAcquires = true ∧
    HalGatt.selfDeadlock HalGatt.locksHeldAtCompletion
      HalGatt.AddClientObserverUnsafeAcquires = false := by
  decide

/-- Claim C10: while the multiplexer singleton is live, a
register-client or register-server event carrying a null uuid pointer
aborts the process through the CHECK assertion, for every registry
content and every status and identifier; the log-and-drop path applies
only when the singleton itself is gone, in which case any event,
including one with a null uuid pointer, is dropped without aborting. -/
theorem C10_null_uuid_fatal_check :
    (∀ (reg : HalGatt.GattRegistry) (st cid : Int),
        HalGatt.RegisterClientCallback (some reg) st cid none =
          HalGatt.DispatchOutcome.aborted) ∧
    (∀ (reg : HalGatt.GattRegistry) (st sid : Int),
        HalGatt.RegisterServerCallback (some reg) st sid none =
          HalGatt.DispatchOutcome.aborted) ∧
    (∀ (st cid : Int) (p : Option Nat),
        HalGatt.RegisterClientCallback none st cid p =
          HalGatt.DispatchOutcome.dropped) ∧
    (∀ (st sid : Int) (p : Option Nat),
        HalGatt.RegisterServerCallback none st sid p =
          HalGatt.DispatchOutcome.dropped) :=
  ⟨fun reg st cid => rfl, fun reg st sid => rfl,
   fun st cid p => rfl, fun st sid p => rfl⟩
